import Mathlib

/-!
Verification of the altmount file-health monitoring and repair-escalation
engine (`internal/health/worker.go`) against its specification.

The worker logic (`handleHealthCheckResult`, `triggerFileRepair`,
`performDirectCheck`, `processRepairNotification`, `runHealthCheckCycle`,
`CancelHealthCheck`, the tick loop of `run`) is embedded from the source.
The persistence layer (`database.HealthRepository`), the scheduler curve
(`calculateNextCheck`) and the external prober/rescanner are not part of
the sources; they are modelled from the specification (§4.1, §4.2, §6) and
are marked `Modelled from the spec:` below.  Timestamps are milliseconds
as natural numbers; Go's signed integer counters are embedded as `Int`.
-/

namespace Altmount

/-- Health status of a tracked file.  The spec (§3) distinguishes the
retrying `corrupted` state from the terminal `permanentlyCorrupted` state. -/
inductive HealthStatus where
  | pending
  | checking
  | healthy
  | corrupted
  | repairTriggered
  | permanentlyCorrupted
deriving DecidableEq, Repr

/-- The authoritative per-file entity (`database.FileHealth`, spec §3).
Counters are `Int` because Go's fields are signed integers. -/
structure FileHealth where
  filePath : String
  status : HealthStatus
  sourceNzbPath : Option String
  libraryPath : Option String
  releaseDate : Option Nat
  retryCount : Int
  maxRetries : Int
  repairRetryCount : Int
  maxRepairRetries : Int
  lastError : Option String
  lastChecked : Option Nat
  scheduledCheckAt : Option Nat
  createdAt : Nat
deriving DecidableEq, Repr

/-- Probe outcome kinds (`EventTypeFileHealthy` / `EventTypeFileCorrupted` /
`EventTypeCheckFailed` in the source). -/
inductive EventType where
  | fileHealthy
  | fileCorrupted
  | checkFailed
deriving DecidableEq, Repr

/-- A health-check event produced by the prober (`HealthEvent`). -/
structure HealthEvent where
  type : EventType
  filePath : String
  errorMsg : Option String
deriving DecidableEq, Repr

/-- Worker statistics fields relevant to the claims (`WorkerStats`). -/
structure WorkerStats where
  totalRunsCompleted : Int
  totalFilesChecked : Int
  totalFilesHealthy : Int
  totalFilesCorrupted : Int
  errorCount : Int
  lastError : Option String
deriving DecidableEq, Repr

/-- The observable world: the persistent store plus the in-memory
active-check registry and traces of every call to an external collaborator
(probe invocations, VFS notifications, rescan requests) and of each entry
into the trigger-repair procedure. -/
structure WorldState where
  store : List FileHealth
  activeChecks : List String
  probeCalls : List String
  notifyCalls : List String
  rescanCalls : List String
  repairTriggerCalls : List String
  stats : WorkerStats
deriving DecidableEq, Repr

/-- Modelled from the spec: `get(file_path)` of the HealthStore (§4.1);
exactly one record per path (invariant §3.1), first match returned. -/
def getFileHealth (store : List FileHealth) (path : String) : Option FileHealth :=
  store.find? (fun r => r.filePath == path)

/-- Point update of the record stored under `path`. -/
def setRecord (store : List FileHealth) (path : String)
    (f : FileHealth → FileHealth) : List FileHealth :=
  store.map (fun r => if r.filePath == path then f r else r)

/-- Modelled from the spec: retry backoff (§4.2),
`now + min(base * 2^(retry_count), cap)` with base 1 minute, cap 1 hour,
in milliseconds. -/
def backoffDelay (retryCount : Int) : Nat :=
  min (60000 * 2 ^ retryCount.toNat) 3600000

/-- Modelled from the spec: the flat `repair_recheck_delay` of 1 hour (§4.2). -/
def repairRecheckDelay : Nat := 3600000

/-- Modelled from the spec: the scheduler curve `next_check_at(release, now)`
(§4.2): age < 24 h → +1 h; < 7 d → +6 h; < 30 d → +24 h; else +7 d.
`calculateNextCheck` itself is not among the sources. -/
def calculateNextCheck (releaseDate now : Nat) : Nat :=
  let age := now - releaseDate
  if age < 86400000 then now + 3600000
  else if age < 604800000 then now + 21600000
  else if age < 2592000000 then now + 86400000
  else now + 604800000

/-- Modelled from the spec: `mark_healthy(file_path, next_scheduled_at)`
(§4.1) — status Healthy, both retry counters zero, `last_checked` and
`scheduled_check_at` updated (`HealthRepository.MarkAsHealthy`). -/
def markAsHealthy (store : List FileHealth) (path : String)
    (nextCheck now : Nat) : List FileHealth :=
  setRecord store path (fun r =>
    { r with status := .healthy, retryCount := 0, repairRetryCount := 0,
             lastChecked := some now, scheduledCheckAt := some nextCheck })

/-- Modelled from the spec: `increment_retry(file_path, last_error)` (§4.1) —
`retry_count += 1`, `last_checked = now`,
`scheduled_check_at = now + backoff(retry_count)`, status stays Corrupted
(`HealthRepository.IncrementRetryCount`). -/
def incrementRetryCount (now : Nat) (store : List FileHealth) (path : String)
    (errorMsg : Option String) : List FileHealth :=
  setRecord store path (fun r =>
    { r with retryCount := r.retryCount + 1, lastError := errorMsg,
             lastChecked := some now,
             scheduledCheckAt := some (now + backoffDelay (r.retryCount + 1)),
             status := .corrupted })

/-- Modelled from the spec: `increment_repair_retry(file_path, last_error)`
(§4.1) — analogous on `repair_retry_count`; the status (the phase
discriminator) is left unchanged (`HealthRepository.IncrementRepairRetryCount`). -/
def incrementRepairRetryCount (now : Nat) (store : List FileHealth)
    (path : String) (errorMsg : Option String) : List FileHealth :=
  setRecord store path (fun r =>
    { r with repairRetryCount := r.repairRetryCount + 1, lastError := errorMsg,
             lastChecked := some now,
             scheduledCheckAt := some (now + backoffDelay (r.repairRetryCount + 1)) })

/-- Modelled from the spec: `mark_permanently_corrupted(file_path, last_error)`
(§4.1), the terminal transition (`HealthRepository.MarkAsCorrupted`). -/
def markAsCorrupted (store : List FileHealth) (path : String)
    (errorMsg : Option String) : List FileHealth :=
  setRecord store path (fun r =>
    { r with status := .permanentlyCorrupted, lastError := errorMsg })

/-- Modelled from the spec: `HealthRepository.SetCorrupted`, used by
`triggerFileRepair` when the rescanner refused — spec §4.4 step 5 sets
status PermanentlyCorrupted with the error. -/
def setCorrupted (store : List FileHealth) (path : String)
    (errorMsg : Option String) : List FileHealth :=
  markAsCorrupted store path errorMsg

/-- Modelled from the spec: the general write path
`update(file_path, status, last_error, source_ref, scheduled_check_at,
reset_counters)` (§4.1, `HealthRepository.UpdateFileHealth`): status and
`last_error` are written; `source_ref` and `scheduled_check_at` only when
supplied; counters reset only when `resetCounters`. -/
def updateFileHealth (store : List FileHealth) (path : String)
    (status : HealthStatus) (errorMsg : Option String)
    (sourceNzb : Option String) (schedAt : Option Nat)
    (resetCounters : Bool) : List FileHealth :=
  setRecord store path (fun r =>
    { r with status := status, lastError := errorMsg,
             sourceNzbPath := sourceNzb.orElse (fun _ => r.sourceNzbPath),
             scheduledCheckAt := (schedAt.map some).getD r.scheduledCheckAt,
             retryCount := if resetCounters then 0 else r.retryCount,
             repairRetryCount := if resetCounters then 0 else r.repairRetryCount })

/-- Modelled from the spec: `set_checking(file_path)` (§4.1) —
`Pending | Corrupted → Checking`; fails for Healthy and
PermanentlyCorrupted (`HealthRepository.SetFileChecking`). -/
def setFileChecking (store : List FileHealth) (path : String) :
    List FileHealth × Option String :=
  match getFileHealth store path with
  | none => (store, some ("file health record not found for file: " ++ path))
  | some r =>
    if r.status = .healthy ∨ r.status = .permanentlyCorrupted then
      (store, some ("cannot set checking status for file: " ++ path))
    else
      (setRecord store path (fun g => { g with status := .checking }), none)

/-- `true` when the record is due for a health check
(spec §4.1 `fetch_due_for_check`): `scheduled_check_at ≤ now` and status in
{Pending, Corrupted}. -/
def isDueForCheck (now : Nat) (r : FileHealth) : Bool :=
  (r.status == .pending || r.status == .corrupted) &&
    (match r.scheduledCheckAt with
     | some t => decide (t ≤ now)
     | none => false)

/-- Modelled from the spec: `fetch_due_for_check(limit)` (§4.1,
`HealthRepository.GetUnhealthyFiles`), bounded to `limit`. -/
def getUnhealthyFiles (store : List FileHealth) (now : Nat) (limit : Nat) :
    List FileHealth :=
  (store.filter (isDueForCheck now)).take limit

/-- `true` when the record is due for a repair notification
(spec §4.1 `fetch_due_for_repair`): status RepairTriggered,
`repair_retry_count < max_repair_retries`, `scheduled_check_at ≤ now`. -/
def isDueForRepair (now : Nat) (r : FileHealth) : Bool :=
  r.status == .repairTriggered &&
    decide (r.repairRetryCount < r.maxRepairRetries) &&
    (match r.scheduledCheckAt with
     | some t => decide (t ≤ now)
     | none => false)

/-- Modelled from the spec: `fetch_due_for_repair(limit)` (§4.1,
`HealthRepository.GetFilesForRepairNotification`). -/
def getFilesForRepairNotification (store : List FileHealth) (now : Nat)
    (limit : Nat) : List FileHealth :=
  (store.filter (isDueForRepair now)).take limit

/-- A rescanner: maps the library path to `none` on success or the error
message when the external system refused (spec §6, `arrs.Service.TriggerFileRescan`). -/
abbrev Rescanner : Type := String → Option String

/-- A prober: maps the file path to the probe outcome and its optional
error (spec §6; the body of `HealthChecker.CheckFile` is external). -/
abbrev Prober : Type := String → EventType × Option String

/-- Embedded from `worker.go` lines 718–758 (`HealthWorker.triggerFileRepair`):
log entry, fetch the record, fail when the library path is missing or
empty, otherwise call the rescanner; on rescan failure the record is set
corrupted and `nil` is returned; on rescan success nothing else happens.
The `errorMsg` argument is accepted and never used, exactly as in the
source.  The result pairs the new world with the returned error. -/
def triggerFileRepair (rescan : Rescanner) (w : WorldState)
    (filePath : String) (_errorMsg : Option String) : WorldState × Option String :=
  let w := { w with repairTriggerCalls := w.repairTriggerCalls ++ [filePath] }
  match getFileHealth w.store filePath with
  | none =>
    (w, some ("failed to get health record for library path lookup: " ++ filePath))
  | some healthRecord =>
    match healthRecord.libraryPath with
    | none =>
      (w, some ("no library path found for file: " ++ filePath ++
                ", trigger a manual library sync to fix this"))
    | some libraryPath =>
      if libraryPath = "" then
        (w, some ("no library path found for file: " ++ filePath ++
                  ", trigger a manual library sync to fix this"))
      else
        let w := { w with rescanCalls := w.rescanCalls ++ [libraryPath] }
        match rescan libraryPath with
        | some rescanErr =>
          ({ w with store := setCorrupted w.store filePath (some rescanErr) }, none)
        | none =>
          (w, none)

/-- Embedded from `worker.go` lines 406–530
(`HealthWorker.handleHealthCheckResult`): dispatch on the event type; a
Healthy outcome marks the record healthy with the scheduler's next check;
Corrupted / CheckFailed outcomes increment the phase counter (the record
is read first, the escalation comparison runs against the pre-increment
counter) and escalate when the bound is reached.  The metadata-service
status write is external and modelled as always succeeding. -/
def handleHealthCheckResult (rescan : Rescanner) (now : Nat) (w : WorldState)
    (event : HealthEvent) : WorldState × Option String :=
  match event.type with
  | .fileHealthy =>
    match getFileHealth w.store event.filePath with
    | some fileHealth =>
      let releaseDate := fileHealth.releaseDate.getD fileHealth.createdAt
      let nextCheck := calculateNextCheck releaseDate now
      ({ w with store := markAsHealthy w.store event.filePath nextCheck now }, none)
    | none => (w, none)
  | _ =>
    match getFileHealth w.store event.filePath with
    | none =>
      (w, some ("file health record not found for file: " ++ event.filePath))
    | some fileHealth =>
      let errorMsg := event.errorMsg
      if fileHealth.status = .repairTriggered then
        let w := { w with
          store := incrementRepairRetryCount now w.store event.filePath errorMsg }
        if fileHealth.repairRetryCount ≥ fileHealth.maxRepairRetries - 1 then
          ({ w with store := markAsCorrupted w.store event.filePath errorMsg }, none)
        else
          (w, none)
      else
        let w := { w with
          store := incrementRetryCount now w.store event.filePath errorMsg }
        if fileHealth.retryCount ≥ fileHealth.maxRetries - 1 then
          match triggerFileRepair rescan w event.filePath errorMsg with
          | (w, some e) => (w, some ("failed to trigger repair: " ++ e))
          | (w, none) => (w, none)
        else
          (w, none)

/-- Registry insertion: `hw.activeChecks[filePath] = cancel` on a Go map
overwrites any existing entry for the key. -/
def registerCheck (registry : List String) (filePath : String) : List String :=
  filePath :: registry.filter (fun p => !(p == filePath))

/-- Registry removal: `delete(hw.activeChecks, filePath)`. -/
def deregisterCheck (registry : List String) (filePath : String) : List String :=
  registry.filter (fun p => !(p == filePath))

/-- Embedded from `worker.go` lines 348–404 (`HealthWorker.performDirectCheck`):
register the cancel handle (unconditionally — a pre-existing entry is
overwritten), check cancellation, probe, re-check cancellation (a
cancellation observed here discards the probe's result), handle the
result, notify the VFS, bump statistics, and deregister on every exit
path.  The two cancellation checks of the source's `select` blocks are
the booleans `cancelledBefore` and `cancelledDuring`. -/
def performDirectCheck (prober : Prober) (rescan : Rescanner)
    (cancelledBefore cancelledDuring : Bool) (now : Nat) (w : WorldState)
    (filePath : String) : WorldState × Option String :=
  let w := { w with activeChecks := registerCheck w.activeChecks filePath }
  if cancelledBefore then
    ({ w with activeChecks := deregisterCheck w.activeChecks filePath },
     some "context canceled")
  else
    let (etype, emsg) := prober filePath
    let w := { w with probeCalls := w.probeCalls ++ [filePath] }
    let event : HealthEvent := ⟨etype, filePath, emsg⟩
    if cancelledDuring then
      ({ w with activeChecks := deregisterCheck w.activeChecks filePath },
       some "context canceled")
    else
      match handleHealthCheckResult rescan now w event with
      | (w, some e) =>
        ({ w with activeChecks := deregisterCheck w.activeChecks filePath },
         some ("failed to handle health check result: " ++ e))
      | (w, none) =>
        let w := { w with notifyCalls := w.notifyCalls ++ [filePath] }
        let w := { w with stats := { w.stats with
          totalFilesChecked := w.stats.totalFilesChecked + 1,
          totalFilesHealthy := w.stats.totalFilesHealthy +
            (if etype = EventType.fileHealthy then 1 else 0),
          totalFilesCorrupted := w.stats.totalFilesCorrupted +
            (if etype = EventType.fileCorrupted then 1 else 0) } }
        ({ w with activeChecks := deregisterCheck w.activeChecks filePath }, none)

/-- Embedded from `worker.go` lines 187–212 (`HealthWorker.CancelHealthCheck`):
fail when no entry exists for the path; otherwise fire the cancel handle,
remove the entry and write the record back to Pending without resetting
counters. -/
def cancelHealthCheck (w : WorldState) (filePath : String) :
    WorldState × Option String :=
  if w.activeChecks.contains filePath then
    let w := { w with activeChecks := deregisterCheck w.activeChecks filePath }
    ({ w with store := updateFileHealth w.store filePath .pending none none none false },
     none)
  else
    (w, some ("no active health check found for file: " ++ filePath))

/-- Embedded from `worker.go` lines 532–568
(`HealthWorker.processRepairNotification`): call `triggerFileRepair`; on
failure increment the repair retry count with the error message and
return success (the retry was scheduled). -/
def processRepairNotification (rescan : Rescanner) (now : Nat) (w : WorldState)
    (fileHealth : FileHealth) : WorldState × Option String :=
  match triggerFileRepair rescan w fileHealth.filePath none with
  | (w, some e) =>
    ({ w with store := incrementRepairRetryCount now w.store fileHealth.filePath (some e) },
     none)
  | (w, none) => (w, none)

/-- One health-check task of the cycle (`worker.go` lines 636–659): set the
checking status (skip the file when that fails) and run the direct check;
errors are logged, not propagated. -/
def cycleCheckTask (prober : Prober) (rescan : Rescanner) (now : Nat)
    (w : WorldState) (fh : FileHealth) : WorldState :=
  match setFileChecking w.store fh.filePath with
  | (_, some _) => w
  | (store, none) =>
    (performDirectCheck prober rescan false false now { w with store := store }
      fh.filePath).1

/-- Embedded from `worker.go` lines 579–700 (`HealthWorker.runHealthCheckCycle`):
fetch the batch due for checking and the batch due for repair
notification (either fetch may fail, aborting the cycle); an empty cycle
bumps `total_runs_completed` and returns; otherwise every task runs and
`total_runs_completed` is bumped at the end.  The bounded pool is
embedded as sequential execution — one legal interleaving; none of the
per-file tasks touches `total_runs_completed`. -/
def runHealthCheckCycle (prober : Prober) (rescan : Rescanner)
    (fetchCheckOk fetchRepairOk : Bool) (maxConcurrent : Nat) (now : Nat)
    (w : WorldState) : WorldState × Option String :=
  if !fetchCheckOk then
    (w, some "failed to get unhealthy files")
  else if !fetchRepairOk then
    (w, some "failed to get files for repair notification")
  else
    let unhealthyFiles := getUnhealthyFiles w.store now maxConcurrent
    let repairFiles := getFilesForRepairNotification w.store now maxConcurrent
    if unhealthyFiles.length + repairFiles.length = 0 then
      ({ w with stats := { w.stats with
         totalRunsCompleted := w.stats.totalRunsCompleted + 1 } }, none)
    else
      let w := unhealthyFiles.foldl (cycleCheckTask prober rescan now) w
      let w := repairFiles.foldl
        (fun w fh => (processRepairNotification rescan now w fh).1) w
      ({ w with stats := { w.stats with
         totalRunsCompleted := w.stats.totalRunsCompleted + 1 } }, none)

/-- Embedded from `worker.go` lines 243–261 (the ticker case of
`HealthWorker.run`): when a previous cycle is still running the tick is
skipped; otherwise the cycle runs, and a cycle-level error bumps
`error_count` and records `last_error` on the stats. -/
def tickOnce (prober : Prober) (rescan : Rescanner)
    (fetchCheckOk fetchRepairOk : Bool) (maxConcurrent : Nat) (now : Nat)
    (cycleRunning : Bool) (w : WorldState) : WorldState :=
  if cycleRunning then w
  else
    match runHealthCheckCycle prober rescan fetchCheckOk fetchRepairOk
      maxConcurrent now w with
    | (w, some e) =>
      { w with stats := { w.stats with
          errorCount := w.stats.errorCount + 1, lastError := some e } }
    | (w, none) => w

/-- Timed loop state for the non-overlap property: the world plus the
instant until which the in-flight cycle keeps the `cycleRunning` flag set. -/
structure LoopState where
  w : WorldState
  busyUntil : Nat
deriving DecidableEq, Repr

/-- One tick of the timed loop (`worker.go` lines 243–252 plus the flag
management of lines 580–591): a tick arriving while the flag is still set
does nothing at all — no store fetch, no task; otherwise the cycle runs
and holds the flag for the duration of the probe it executed (store
operations are instantaneous in this model). -/
def tickAt (prober : Prober) (rescan : Rescanner) (maxConcurrent : Nat)
    (probeDuration : Nat) (t : Nat) (s : LoopState) : LoopState :=
  if t < s.busyUntil then s
  else
    let w := (runHealthCheckCycle prober rescan true true maxConcurrent t s.w).1
    if s.w.probeCalls.length < w.probeCalls.length then
      { w := w, busyUntil := t + probeDuration }
    else
      { w := w, busyUntil := s.busyUntil }

/-- Run the timed loop over a list of tick instants. -/
def runTicks (prober : Prober) (rescan : Rescanner) (maxConcurrent : Nat)
    (probeDuration : Nat) (ts : List Nat) (s : LoopState) : LoopState :=
  ts.foldl (fun s t => tickAt prober rescan maxConcurrent probeDuration t s) s

/-! Concrete scenario data used by the end-to-end evaluations (spec §8). -/

/-- A prober that reports every file corrupted (scenarios S2/S3/S6). -/
def proberAlwaysCorrupted : Prober := fun _ => (.fileCorrupted, some "corrupt")

/-- A rescanner that always succeeds. -/
def rescanAlwaysOk : Rescanner := fun _ => none

/-- All-zero worker statistics. -/
def initialStats : WorkerStats := ⟨0, 0, 0, 0, 0, none⟩

/-- The record of scenario S2: pending, due immediately, `max_retries = 3`,
`max_repair_retries = 2`, library path `/lib/x`. -/
def recordS2 : FileHealth :=
  { filePath := "/m/x.mkv", status := .pending, sourceNzbPath := none,
    libraryPath := some "/lib/x", releaseDate := some 0,
    retryCount := 0, maxRetries := 3, repairRetryCount := 0,
    maxRepairRetries := 2, lastError := none, lastChecked := none,
    scheduledCheckAt := some 0, createdAt := 0 }

/-- Initial world of scenario S2: the single record, nothing in flight. -/
def worldS2 : WorldState := ⟨[recordS2], [], [], [], [], [], initialStats⟩

/-- Scenario S2 driven for three cycles (each at an instant at which the
record is due again after its retry backoff): probe always Corrupted,
rescanner always succeeds. -/
def s2AfterThreeCycles : WorldState :=
  (runHealthCheckCycle proberAlwaysCorrupted rescanAlwaysOk true true 4 500000
    ((runHealthCheckCycle proberAlwaysCorrupted rescanAlwaysOk true true 4 200000
      ((runHealthCheckCycle proberAlwaysCorrupted rescanAlwaysOk true true 4 0
        worldS2).1)).1)).1

/-- World with an active check already registered for `/m/x.mkv`. -/
def worldActiveCheck : WorldState :=
  { worldS2 with activeChecks := ["/m/x.mkv"] }

/-- The record of the counter-bound scenario: corrupted, `max_retries = 1`,
no library path, so the escalating failure leaves the record in the
health-check phase. -/
def recordBound : FileHealth :=
  { recordS2 with
    filePath := "p", status := .corrupted,
    libraryPath := none, maxRetries := 1 }

/-- Initial world of the counter-bound scenario. -/
def worldBound : WorldState := ⟨[recordBound], [], [], [], [], [], initialStats⟩

/-- A corrupted event on `p`. -/
def eventBound : HealthEvent := ⟨.fileCorrupted, "p", some "bad"⟩

/-- The counter-bound world after two Corrupted outcomes. -/
def worldBoundTwice : WorldState :=
  (handleHealthCheckResult rescanAlwaysOk 0
    ((handleHealthCheckResult rescanAlwaysOk 0 worldBound eventBound).1)
    eventBound).1

/-- Scenario S6: the timed loop over the first second, tick every 100 ms,
probe duration 500 ms, one record due. -/
def s6Final : LoopState :=
  runTicks proberAlwaysCorrupted rescanAlwaysOk 4 500
    [100, 200, 300, 400, 500, 600, 700, 800, 900, 1000] ⟨worldS2, 0⟩

/-- A world with an empty store. -/
def emptyWorld : WorldState := ⟨[], [], [], [], [], [], initialStats⟩

/-- A record caught mid-check: status Checking, non-zero retry counter and
a recorded error, used by the cancellation scenario (S4). -/
def recordChecking : FileHealth :=
  { recordS2 with
    status := .checking, retryCount := 2, lastError := some "previous error" }

/-- World of the cancellation scenario: the mid-check record with its
cancel handle registered. -/
def worldCancel : WorldState :=
  ⟨[recordChecking], ["/m/x.mkv"], [], [], [], [], initialStats⟩

/-- The expected state of `recordS2` after one Corrupted outcome handled at
instant 7 (retry backoff of one minute: 7 + 120000). -/
def recordS2AfterOneFailure : FileHealth :=
  { recordS2 with
    retryCount := 1, lastError := some "oops", lastChecked := some 7,
    scheduledCheckAt := some 120007, status := .corrupted }

/-! ## Helper lemmas -/

/-- Looking up the updated path after a point update returns the mapped
record, provided the update preserves the path. -/
theorem getFileHealth_setRecord (store : List FileHealth) (path : String)
    (f : FileHealth → FileHealth) (hf : ∀ r, (f r).filePath = r.filePath) :
    getFileHealth (setRecord store path f) path = (getFileHealth store path).map f := by
  induction store with
  | nil => rfl
  | cons a t ih =>
    by_cases h : a.filePath == path
    · simp only [getFileHealth, setRecord, List.map_cons, if_pos h]
      rw [List.find?_cons_of_pos, List.find?_cons_of_pos]
      · simp
      · exact h
      · show ((f a).filePath == path) = true
        rw [hf a]; exact h
    · simp only [getFileHealth, setRecord, List.map_cons, if_neg h]
      rw [List.find?_cons_of_neg, List.find?_cons_of_neg]
      · exact ih
      · simp [h]
      · simp [h]

theorem getFileHealth_markAsHealthy (store : List FileHealth) (path : String)
    (nextCheck now : Nat) :
    getFileHealth (markAsHealthy store path nextCheck now) path =
      (getFileHealth store path).map (fun r =>
        { r with status := .healthy, retryCount := 0, repairRetryCount := 0,
                 lastChecked := some now, scheduledCheckAt := some nextCheck }) :=
  getFileHealth_setRecord store path _ (fun _ => rfl)

theorem getFileHealth_incrementRetryCount (now : Nat) (store : List FileHealth)
    (path : String) (errorMsg : Option String) :
    getFileHealth (incrementRetryCount now store path errorMsg) path =
      (getFileHealth store path).map (fun r =>
        { r with retryCount := r.retryCount + 1, lastError := errorMsg,
                 lastChecked := some now,
                 scheduledCheckAt := some (now + backoffDelay (r.retryCount + 1)),
                 status := .corrupted }) :=
  getFileHealth_setRecord store path _ (fun _ => rfl)

theorem getFileHealth_incrementRepairRetryCount (now : Nat)
    (store : List FileHealth) (path : String) (errorMsg : Option String) :
    getFileHealth (incrementRepairRetryCount now store path errorMsg) path =
      (getFileHealth store path).map (fun r =>
        { r with repairRetryCount := r.repairRetryCount + 1, lastError := errorMsg,
                 lastChecked := some now,
                 scheduledCheckAt := some (now + backoffDelay (r.repairRetryCount + 1)) }) :=
  getFileHealth_setRecord store path _ (fun _ => rfl)

theorem getFileHealth_markAsCorrupted (store : List FileHealth) (path : String)
    (errorMsg : Option String) :
    getFileHealth (markAsCorrupted store path errorMsg) path =
      (getFileHealth store path).map (fun r =>
        { r with status := .permanentlyCorrupted, lastError := errorMsg }) :=
  getFileHealth_setRecord store path _ (fun _ => rfl)

theorem getFileHealth_updateFileHealth (store : List FileHealth) (path : String)
    (status : HealthStatus) (errorMsg : Option String) (sourceNzb : Option String)
    (schedAt : Option Nat) (resetCounters : Bool) :
    getFileHealth (updateFileHealth store path status errorMsg sourceNzb schedAt
        resetCounters) path =
      (getFileHealth store path).map (fun r =>
        { r with status := status, lastError := errorMsg,
                 sourceNzbPath := sourceNzb.orElse (fun _ => r.sourceNzbPath),
                 scheduledCheckAt := (schedAt.map some).getD r.scheduledCheckAt,
                 retryCount := if resetCounters then 0 else r.retryCount,
                 repairRetryCount := if resetCounters then 0 else r.repairRetryCount }) :=
  getFileHealth_setRecord store path _ (fun _ => rfl)

theorem triggerFileRepair_frame (rescan : Rescanner) (w : WorldState)
    (p : String) (e : Option String) :
    (triggerFileRepair rescan w p e).1.activeChecks = w.activeChecks ∧
    (triggerFileRepair rescan w p e).1.probeCalls = w.probeCalls ∧
    (triggerFileRepair rescan w p e).1.notifyCalls = w.notifyCalls ∧
    (triggerFileRepair rescan w p e).1.stats = w.stats ∧
    (triggerFileRepair rescan w p e).1.repairTriggerCalls = w.repairTriggerCalls ++ [p] := by
  unfold triggerFileRepair
  dsimp only
  cases hg : getFileHealth w.store p with
  | none => simp
  | some g =>
    dsimp only
    cases hl : g.libraryPath with
    | none => simp
    | some lp =>
      dsimp only
      by_cases he : lp = ""
      · simp only [if_pos he]
        simp
      · simp only [if_neg he]
        cases hr : rescan lp with
        | none => simp
        | some er => simp

theorem handleHealthCheckResult_frame (rescan : Rescanner) (now : Nat)
    (w : WorldState) (ev : HealthEvent) :
    (handleHealthCheckResult rescan now w ev).1.activeChecks = w.activeChecks ∧
    (handleHealthCheckResult rescan now w ev).1.probeCalls = w.probeCalls ∧
    (handleHealthCheckResult rescan now w ev).1.notifyCalls = w.notifyCalls ∧
    (handleHealthCheckResult rescan now w ev).1.stats = w.stats := by
  obtain ⟨ety, epath, emsg⟩ := ev
  have hcc : ∀ (hne : ety = EventType.fileCorrupted ∨ ety = EventType.checkFailed),
      (handleHealthCheckResult rescan now w ⟨ety, epath, emsg⟩).1.activeChecks = w.activeChecks ∧
      (handleHealthCheckResult rescan now w ⟨ety, epath, emsg⟩).1.probeCalls = w.probeCalls ∧
      (handleHealthCheckResult rescan now w ⟨ety, epath, emsg⟩).1.notifyCalls = w.notifyCalls ∧
      (handleHealthCheckResult rescan now w ⟨ety, epath, emsg⟩).1.stats = w.stats := by
    intro hne
    unfold handleHealthCheckResult
    rcases hne with h | h <;> subst h <;> dsimp only
    all_goals
      cases hg : getFileHealth w.store epath with
      | none => simp
      | some g =>
        dsimp only
        by_cases hs : g.status = HealthStatus.repairTriggered
        · simp only [if_pos hs]
          by_cases hc : g.repairRetryCount ≥ g.maxRepairRetries - 1
          · simp only [if_pos hc]; simp
          · simp only [if_neg hc]; simp
        · simp only [if_neg hs]
          by_cases hc : g.retryCount ≥ g.maxRetries - 1
          · simp only [if_pos hc]
            have hf := triggerFileRepair_frame rescan
              { w with store := incrementRetryCount now w.store epath emsg } epath emsg
            rcases htr : triggerFileRepair rescan
              { w with store := incrementRetryCount now w.store epath emsg } epath emsg with ⟨w2, err⟩
            rw [htr] at hf
            cases err with
            | none => exact ⟨hf.1, hf.2.1, hf.2.2.1, hf.2.2.2.1⟩
            | some e2 => exact ⟨hf.1, hf.2.1, hf.2.2.1, hf.2.2.2.1⟩
          · simp only [if_neg hc]; simp
  cases ety with
  | fileHealthy =>
    unfold handleHealthCheckResult
    dsimp only
    cases hg : getFileHealth w.store epath with
    | none => simp
    | some g => simp
  | fileCorrupted => exact hcc (Or.inl rfl)
  | checkFailed => exact hcc (Or.inr rfl)

theorem performDirectCheck_totalRuns (prober : Prober) (rescan : Rescanner)
    (cb cd : Bool) (now : Nat) (w : WorldState) (p : String) :
    (performDirectCheck prober rescan cb cd now w p).1.stats.totalRunsCompleted
      = w.stats.totalRunsCompleted := by
  unfold performDirectCheck
  cases cb with
  | true => rfl
  | false =>
    dsimp only
    rcases hp : prober p with ⟨ety, emsg⟩
    cases cd with
    | true => rfl
    | false =>
      dsimp only
      have hf := handleHealthCheckResult_frame rescan now
        { w with activeChecks := registerCheck w.activeChecks p,
                 probeCalls := w.probeCalls ++ [p] } ⟨ety, p, emsg⟩
      rcases hh : handleHealthCheckResult rescan now
        { w with activeChecks := registerCheck w.activeChecks p,
                 probeCalls := w.probeCalls ++ [p] } ⟨ety, p, emsg⟩ with ⟨w2, err⟩
      rw [hh] at hf
      dsimp only at hf
      cases err with
      | some e => simp [hf.2.2.2]
      | none => simp [hf.2.2.2]

theorem processRepairNotification_stats (rescan : Rescanner) (now : Nat)
    (w : WorldState) (fh : FileHealth) :
    (processRepairNotification rescan now w fh).1.stats = w.stats := by
  unfold processRepairNotification
  have hf := triggerFileRepair_frame rescan w fh.filePath none
  rcases htr : triggerFileRepair rescan w fh.filePath none with ⟨w2, err⟩
  rw [htr] at hf
  dsimp only at hf
  cases err with
  | some e => simp [hf.2.2.2.1]
  | none => simp [hf.2.2.2.1]

theorem cycleCheckTask_totalRuns (prober : Prober) (rescan : Rescanner)
    (now : Nat) (w : WorldState) (fh : FileHealth) :
    (cycleCheckTask prober rescan now w fh).stats.totalRunsCompleted
      = w.stats.totalRunsCompleted := by
  unfold cycleCheckTask
  rcases hsc : setFileChecking w.store fh.filePath with ⟨store2, err⟩
  cases err with
  | some e => rfl
  | none =>
    exact performDirectCheck_totalRuns prober rescan false false now
      { w with store := store2 } fh.filePath

theorem foldl_totalRuns {α : Type} (g : WorldState → α → WorldState)
    (h : ∀ w a, (g w a).stats.totalRunsCompleted = w.stats.totalRunsCompleted)
    (l : List α) : ∀ (w : WorldState),
    (l.foldl g w).stats.totalRunsCompleted = w.stats.totalRunsCompleted := by
  induction l with
  | nil => intro w; rfl
  | cons a t ih => intro w; rw [List.foldl_cons, ih, h]

theorem runHealthCheckCycle_totalRuns_succ (prober : Prober) (rescan : Rescanner)
    (maxConcurrent now : Nat) (w : WorldState) :
    (runHealthCheckCycle prober rescan true true maxConcurrent now w).1.stats.totalRunsCompleted
      = w.stats.totalRunsCompleted + 1 := by
  unfold runHealthCheckCycle
  rw [if_neg (by simp : ¬((!true : Bool) = true)), if_neg (by simp : ¬((!true : Bool) = true))]
  dsimp only
  by_cases hz : (getUnhealthyFiles w.store now maxConcurrent).length +
      (getFilesForRepairNotification w.store now maxConcurrent).length = 0
  · rw [if_pos hz]
  · rw [if_neg hz]
    dsimp only
    rw [foldl_totalRuns _
          (fun w fh => congrArg WorkerStats.totalRunsCompleted
            (processRepairNotification_stats rescan now w fh)),
        foldl_totalRuns _ (cycleCheckTask_totalRuns prober rescan now)]

theorem runHealthCheckCycle_fetchCheckFail (prober : Prober) (rescan : Rescanner)
    (frOk : Bool) (maxConcurrent now : Nat) (w : WorldState) :
    runHealthCheckCycle prober rescan false frOk maxConcurrent now w
      = (w, some "failed to get unhealthy files") := rfl

theorem runHealthCheckCycle_fetchRepairFail (prober : Prober) (rescan : Rescanner)
    (maxConcurrent now : Nat) (w : WorldState) :
    runHealthCheckCycle prober rescan true false maxConcurrent now w
      = (w, some "failed to get files for repair notification") := rfl

theorem tickOnce_totalRuns_mono (prober : Prober) (rescan : Rescanner)
    (fc fr : Bool) (maxConcurrent now : Nat) (cr : Bool) (w : WorldState) :
    w.stats.totalRunsCompleted
      ≤ (tickOnce prober rescan fc fr maxConcurrent now cr w).stats.totalRunsCompleted := by
  unfold tickOnce
  cases cr with
  | true => exact le_refl _
  | false =>
    cases fc with
    | false => simp [runHealthCheckCycle_fetchCheckFail]
    | true =>
      cases fr with
      | false => simp [runHealthCheckCycle_fetchRepairFail]
      | true =>
        have h := runHealthCheckCycle_totalRuns_succ prober rescan maxConcurrent now w
        rcases hc : runHealthCheckCycle prober rescan true true maxConcurrent now w with ⟨w2, err⟩
        rw [hc] at h
        dsimp only at h
        cases err with
        | some e => simp [h]
        | none => simp [h]

/-! ## Claim theorems -/

/-- Claim C10: a Corrupted or CheckFailed probe outcome on a file path with
no record in the health store performs no store writes and returns an error
reporting that the health record was not found — the whole world is
returned unchanged, so a probe outcome can never create a record. -/
theorem C10_missing_record_no_write (rescan : Rescanner) (now : Nat) (w : WorldState)
    (path : String) (emsg : Option String) (etype : EventType)
    (hget : getFileHealth w.store path = none)
    (hev : etype = EventType.fileCorrupted ∨ etype = EventType.checkFailed) :
    handleHealthCheckResult rescan now w ⟨etype, path, emsg⟩
      = (w, some ("file health record not found for file: " ++ path)) := by
  unfold handleHealthCheckResult
  rcases hev with h | h <;> subst h <;> dsimp only <;> rw [hget]

/-- Claim C9: a Healthy probe outcome on a tracked record marks it Healthy
with both retry counters zero, updates `last_checked` to now, and sets
`scheduled_check_at` to the scheduler's `next_check_at(release_date, now)`,
with `created_at` substituting for an absent `release_date`. -/
theorem C9_healthy_marks_and_reschedules (rescan : Rescanner) (now : Nat) (w : WorldState)
    (path : String) (emsg : Option String) (fh : FileHealth)
    (hget : getFileHealth w.store path = some fh) :
    (handleHealthCheckResult rescan now w ⟨.fileHealthy, path, emsg⟩).2 = none ∧
    getFileHealth
        (handleHealthCheckResult rescan now w ⟨.fileHealthy, path, emsg⟩).1.store path
      = some { fh with
          status := .healthy, retryCount := 0, repairRetryCount := 0,
          lastChecked := some now,
          scheduledCheckAt :=
            some (calculateNextCheck (fh.releaseDate.getD fh.createdAt) now) } := by
  unfold handleHealthCheckResult
  dsimp only
  rw [hget]
  dsimp only
  refine ⟨rfl, ?_⟩
  rw [getFileHealth_markAsHealthy, hget]
  rfl

/-- Claim C3: when repair is needed for a record whose library path is
missing or empty, the repair-notification path fails the precondition,
persists the error as `last_error`, increments `repair_retry_count` by one
(so the repair is retried later), never invokes the rescanner, keeps the
record's status (in particular it does not become PermanentlyCorrupted),
and reports success to the cycle. -/
theorem C3_missing_library_ref_increments_repair_retry (rescan : Rescanner) (now : Nat) (w : WorldState)
    (fh g : FileHealth) (hget : getFileHealth w.store fh.filePath = some g)
    (hlib : g.libraryPath = none ∨ g.libraryPath = some "") :
    (processRepairNotification rescan now w fh).2 = none ∧
    (processRepairNotification rescan now w fh).1.rescanCalls = w.rescanCalls ∧
    getFileHealth (processRepairNotification rescan now w fh).1.store fh.filePath
      = some { g with
          repairRetryCount := g.repairRetryCount + 1,
          lastError := some ("no library path found for file: " ++ fh.filePath ++
            ", trigger a manual library sync to fix this"),
          lastChecked := some now,
          scheduledCheckAt := some (now + backoffDelay (g.repairRetryCount + 1)) } := by
  unfold processRepairNotification triggerFileRepair
  dsimp only
  rw [hget]
  dsimp only
  rcases hlib with h | h
  · rw [h]
    dsimp only
    refine ⟨rfl, rfl, ?_⟩
    rw [getFileHealth_incrementRepairRetryCount, hget]
    simp [h]
  · rw [h]
    dsimp only
    rw [if_pos rfl]
    dsimp only
    refine ⟨rfl, rfl, ?_⟩
    rw [getFileHealth_incrementRepairRetryCount, hget]
    simp [h]


/-- Claim C4: in the health-check phase a Corrupted or CheckFailed outcome
escalates to repair exactly when `retry_count ≥ max_retries − 1`, the
comparison evaluated over signed integers (`Int`) against the counter read
before this failure is recorded; hence `max_retries = N` escalates on the
Nth failure and `max_retries ≤ 1` escalates on the first failure. -/
theorem C4_escalation_iff_bound (rescan : Rescanner) (now : Nat) (w : WorldState)
    (path : String) (emsg : Option String) (etype : EventType) (fh : FileHealth)
    (hget : getFileHealth w.store path = some fh)
    (hphase : fh.status ≠ HealthStatus.repairTriggered)
    (hev : etype = EventType.fileCorrupted ∨ etype = EventType.checkFailed) :
    ((handleHealthCheckResult rescan now w ⟨etype, path, emsg⟩).1.repairTriggerCalls
        = w.repairTriggerCalls ++ [path] ↔ fh.retryCount ≥ fh.maxRetries - 1)
    ∧ (fh.maxRetries ≤ 1 → fh.retryCount = 0 →
        (handleHealthCheckResult rescan now w ⟨etype, path, emsg⟩).1.repairTriggerCalls
          = w.repairTriggerCalls ++ [path])
    ∧ (fh.retryCount = fh.maxRetries - 1 →
        (handleHealthCheckResult rescan now w ⟨etype, path, emsg⟩).1.repairTriggerCalls
          = w.repairTriggerCalls ++ [path]) := by
  have hmain : (handleHealthCheckResult rescan now w ⟨etype, path, emsg⟩).1.repairTriggerCalls
      = w.repairTriggerCalls ++ [path] ↔ fh.retryCount ≥ fh.maxRetries - 1 := by
    unfold handleHealthCheckResult
    rcases hev with h | h <;> subst h
    all_goals
      try dsimp only
      rw [hget]
      try dsimp only
      rw [if_neg hphase]
      try dsimp only
      by_cases hc : fh.retryCount ≥ fh.maxRetries - 1
      case pos =>
        rw [if_pos hc]
        have hf := triggerFileRepair_frame rescan
          { w with store := incrementRetryCount now w.store path emsg } path emsg
        rcases htr : triggerFileRepair rescan
          { w with store := incrementRetryCount now w.store path emsg } path emsg with ⟨w2, err⟩
        rw [htr] at hf
        dsimp only at hf
        cases err with
        | some e => simp [hf.2.2.2.2, hc]
        | none => simp [hf.2.2.2.2, hc]
      case neg =>
        rw [if_neg hc]
        dsimp only
        simp [hc]
  refine ⟨hmain, fun h1 h2 => hmain.2 (by omega), fun h1 => hmain.2 (by omega)⟩

theorem getFileHealth_setCorrupted (store : List FileHealth) (path : String)
    (errorMsg : Option String) :
    getFileHealth (setCorrupted store path errorMsg) path =
      (getFileHealth store path).map (fun r =>
        { r with status := .permanentlyCorrupted, lastError := errorMsg }) :=
  getFileHealth_markAsCorrupted store path errorMsg

theorem triggerFileRepair_record_cases (rescan : Rescanner) (w : WorldState)
    (p : String) (e : Option String) :
    getFileHealth (triggerFileRepair rescan w p e).1.store p = getFileHealth w.store p
    ∨ ∃ em, getFileHealth (triggerFileRepair rescan w p e).1.store p
        = (getFileHealth w.store p).map (fun r =>
            { r with status := HealthStatus.permanentlyCorrupted, lastError := em }) := by
  unfold triggerFileRepair
  dsimp only
  cases hg : getFileHealth w.store p with
  | none => left; exact hg
  | some g =>
    dsimp only
    cases hl : g.libraryPath with
    | none => left; exact hg
    | some lp =>
      dsimp only
      by_cases he : lp = ""
      · simp only [if_pos he]
        left; exact hg
      · simp only [if_neg he]
        cases hr : rescan lp with
        | none => left; exact hg
        | some er =>
          right
          refine ⟨some er, ?_⟩
          rw [getFileHealth_setCorrupted, hg]

/-- Claim C5 (amended): a single probe-outcome application preserves
`retry_count ≤ max_retries` and `repair_retry_count ≤ max_repair_retries`
provided the pre-state's counters are strictly below their bounds — the
increment performed on the escalating failure raises the counter exactly
to the bound.  Over sequences of outcomes the bound can be exceeded (see
the counterexample): the claim as stated is false. -/
theorem C5_single_step_bound_preservation (rescan : Rescanner) (now : Nat) (w : WorldState)
    (ev : HealthEvent) (g : FileHealth)
    (hget : getFileHealth w.store ev.filePath = some g)
    (hrc0 : 0 ≤ g.retryCount) (hrrc0 : 0 ≤ g.repairRetryCount)
    (h1 : g.retryCount < g.maxRetries) (h2 : g.repairRetryCount < g.maxRepairRetries)
    (g' : FileHealth)
    (hget' : getFileHealth (handleHealthCheckResult rescan now w ev).1.store ev.filePath
      = some g') :
    g'.retryCount ≤ g'.maxRetries ∧ g'.repairRetryCount ≤ g'.maxRepairRetries := by
  obtain ⟨ety, path, emsg⟩ := ev
  dsimp only at hget hget'
  cases ety with
  | fileHealthy =>
    unfold handleHealthCheckResult at hget'
    dsimp only at hget'
    rw [hget] at hget'
    dsimp only at hget'
    rw [getFileHealth_markAsHealthy, hget] at hget'
    simp only [Option.map_some'] at hget'
    injection hget' with hR
    subst hR
    constructor <;> dsimp only <;> omega
  | fileCorrupted =>
    unfold handleHealthCheckResult at hget'
    dsimp only at hget'
    rw [hget] at hget'
    dsimp only at hget'
    by_cases hs : g.status = HealthStatus.repairTriggered
    · rw [if_pos hs] at hget'
      by_cases hcc : g.repairRetryCount ≥ g.maxRepairRetries - 1
      · rw [if_pos hcc] at hget'
        dsimp only at hget'
        rw [getFileHealth_markAsCorrupted, getFileHealth_incrementRepairRetryCount,
            hget] at hget'
        simp only [Option.map_some'] at hget'
        injection hget' with hR
        subst hR
        constructor <;> dsimp only <;> omega
      · rw [if_neg hcc] at hget'
        dsimp only at hget'
        rw [getFileHealth_incrementRepairRetryCount, hget] at hget'
        simp only [Option.map_some'] at hget'
        injection hget' with hR
        subst hR
        constructor <;> dsimp only <;> omega
    · rw [if_neg hs] at hget'
      by_cases hc : g.retryCount ≥ g.maxRetries - 1
      · rw [if_pos hc] at hget'
        have hcases := triggerFileRepair_record_cases rescan
          { w with store := incrementRetryCount now w.store path emsg } path emsg
        rcases htr : triggerFileRepair rescan
          { w with store := incrementRetryCount now w.store path emsg } path emsg with ⟨w2, err⟩
        rw [htr] at hcases hget'
        dsimp only at hcases
        have hw1 : getFileHealth (incrementRetryCount now w.store path emsg) path
            = some { g with
                retryCount := g.retryCount + 1, lastError := emsg,
                lastChecked := some now,
                scheduledCheckAt := some (now + backoffDelay (g.retryCount + 1)),
                status := .corrupted } := by
          rw [getFileHealth_incrementRetryCount, hget]
          rfl
        rw [hw1] at hcases
        cases err with
        | some e =>
          dsimp only at hget'
          rcases hcases with hco | ⟨em, hco⟩ <;> rw [hco] at hget' <;>
            (try simp only [Option.map_some'] at hget') <;> injection hget' with hR <;>
            subst hR <;> constructor <;> dsimp only <;> omega
        | none =>
          dsimp only at hget'
          rcases hcases with hco | ⟨em, hco⟩ <;> rw [hco] at hget' <;>
            (try simp only [Option.map_some'] at hget') <;> injection hget' with hR <;>
            subst hR <;> constructor <;> dsimp only <;> omega
      · rw [if_neg hc] at hget'
        dsimp only at hget'
        rw [getFileHealth_incrementRetryCount, hget] at hget'
        simp only [Option.map_some'] at hget'
        injection hget' with hR
        subst hR
        constructor <;> dsimp only <;> omega
  | checkFailed =>
    unfold handleHealthCheckResult at hget'
    dsimp only at hget'
    rw [hget] at hget'
    dsimp only at hget'
    by_cases hs : g.status = HealthStatus.repairTriggered
    · rw [if_pos hs] at hget'
      by_cases hcc : g.repairRetryCount ≥ g.maxRepairRetries - 1
      · rw [if_pos hcc] at hget'
        dsimp only at hget'
        rw [getFileHealth_markAsCorrupted, getFileHealth_incrementRepairRetryCount,
            hget] at hget'
        simp only [Option.map_some'] at hget'
        injection hget' with hR
        subst hR
        constructor <;> dsimp only <;> omega
      · rw [if_neg hcc] at hget'
        dsimp only at hget'
        rw [getFileHealth_incrementRepairRetryCount, hget] at hget'
        simp only [Option.map_some'] at hget'
        injection hget' with hR
        subst hR
        constructor <;> dsimp only <;> omega
    · rw [if_neg hs] at hget'
      by_cases hc : g.retryCount ≥ g.maxRetries - 1
      · rw [if_pos hc] at hget'
        have hcases := triggerFileRepair_record_cases rescan
          { w with store := incrementRetryCount now w.store path emsg } path emsg
        rcases htr : triggerFileRepair rescan
          { w with store := incrementRetryCount now w.store path emsg } path emsg with ⟨w2, err⟩
        rw [htr] at hcases hget'
        dsimp only at hcases
        have hw1 : getFileHealth (incrementRetryCount now w.store path emsg) path
            = some { g with
                retryCount := g.retryCount + 1, lastError := emsg,
                lastChecked := some now,
                scheduledCheckAt := some (now + backoffDelay (g.retryCount + 1)),
                status := .corrupted } := by
          rw [getFileHealth_incrementRetryCount, hget]
          rfl
        rw [hw1] at hcases
        cases err with
        | some e =>
          dsimp only at hget'
          rcases hcases with hco | ⟨em, hco⟩ <;> rw [hco] at hget' <;>
            (try simp only [Option.map_some'] at hget') <;> injection hget' with hR <;>
            subst hR <;> constructor <;> dsimp only <;> omega
        | none =>
          dsimp only at hget'
          rcases hcases with hco | ⟨em, hco⟩ <;> rw [hco] at hget' <;>
            (try simp only [Option.map_some'] at hget') <;> injection hget' with hR <;>
            subst hR <;> constructor <;> dsimp only <;> omega
      · rw [if_neg hc] at hget'
        dsimp only at hget'
        rw [getFileHealth_incrementRetryCount, hget] at hget'
        simp only [Option.map_some'] at hget'
        injection hget' with hR
        subst hR
        constructor <;> dsimp only <;> omega

theorem deregister_register (l : List String) (p : String) :
    deregisterCheck (registerCheck l p) p = deregisterCheck l p := by
  simp [registerCheck, deregisterCheck, List.filter_filter]

/-- Claim C6: a cancellation observed while the probe is in flight makes
the check return Cancelled with no state-machine store update and no
notifier invocation, with the registry entry removed; and the
cancel-active-check operator removes the registry entry and resets the
record's status to Pending with its previous counters preserved. -/
theorem C6_cancellation_frame :
    (∀ (prober : Prober) (rescan : Rescanner) (now : Nat) (w : WorldState) (path : String),
      (performDirectCheck prober rescan false true now w path).1.store = w.store ∧
      (performDirectCheck prober rescan false true now w path).1.notifyCalls = w.notifyCalls ∧
      (performDirectCheck prober rescan false true now w path).2 = some "context canceled" ∧
      (performDirectCheck prober rescan false true now w path).1.activeChecks
        = deregisterCheck w.activeChecks path)
    ∧ (∀ (w : WorldState) (path : String) (g : FileHealth),
      w.activeChecks.contains path = true →
      getFileHealth w.store path = some g →
      (cancelHealthCheck w path).2 = none ∧
      (cancelHealthCheck w path).1.activeChecks = deregisterCheck w.activeChecks path ∧
      getFileHealth (cancelHealthCheck w path).1.store path
        = some { g with status := .pending, lastError := none }) := by
  constructor
  · intro prober rescan now w path
    unfold performDirectCheck
    rcases hp : prober path with ⟨ety, emsg⟩
    dsimp only
    exact ⟨rfl, rfl, rfl, deregister_register w.activeChecks path⟩
  · intro w path g hactive hget
    unfold cancelHealthCheck
    rw [if_pos hactive]
    dsimp only
    refine ⟨rfl, rfl, ?_⟩
    rw [getFileHealth_updateFileHealth, hget]
    rfl

theorem performDirectCheck_probeCalls (prober : Prober) (rescan : Rescanner)
    (now : Nat) (w : WorldState) (path : String) :
    (performDirectCheck prober rescan false false now w path).1.probeCalls
      = w.probeCalls ++ [path] := by
  unfold performDirectCheck
  rcases hp : prober path with ⟨ety, emsg⟩
  dsimp only
  have hf := handleHealthCheckResult_frame rescan now
    { w with activeChecks := registerCheck w.activeChecks path,
             probeCalls := w.probeCalls ++ [path] } ⟨ety, path, emsg⟩
  rcases hh : handleHealthCheckResult rescan now
    { w with activeChecks := registerCheck w.activeChecks path,
             probeCalls := w.probeCalls ++ [path] } ⟨ety, path, emsg⟩ with ⟨w2, err⟩
  rw [hh] at hf
  dsimp only at hf
  cases err with
  | some e => simp [hf.2.1]
  | none => simp [hf.2.1]

/-- Claim C2 (amended): a direct check on a path that already has an entry
in the active-check registry is NOT rejected — `performDirectCheck`
overwrites the registry entry and invokes the probe regardless; no
AlreadyActive failure exists in the code. -/
theorem C2_duplicate_run_not_rejected (prober : Prober) (rescan : Rescanner) (now : Nat)
    (w : WorldState) (path : String)
    (_hactive : w.activeChecks.contains path = true) :
    (performDirectCheck prober rescan false false now w path).1.probeCalls
      = w.probeCalls ++ [path] :=
  performDirectCheck_probeCalls prober rescan now w path

/-- Claim C7 (amended): `total_runs_completed` is bumped exactly once by
every cycle that runs to completion (whether or not due work was found),
a cycle aborted by a store fetch failure returns the world unchanged (no
bump), and the counter is monotonically non-decreasing across ticks. -/
theorem C7_total_runs_per_completed_cycle (prober : Prober) (rescan : Rescanner) :
    (∀ (maxConcurrent now : Nat) (w : WorldState),
      (runHealthCheckCycle prober rescan true true maxConcurrent now w).1.stats.totalRunsCompleted
        = w.stats.totalRunsCompleted + 1)
    ∧ (∀ (frOk : Bool) (maxConcurrent now : Nat) (w : WorldState),
      runHealthCheckCycle prober rescan false frOk maxConcurrent now w
        = (w, some "failed to get unhealthy files"))
    ∧ (∀ (fc fr : Bool) (maxConcurrent now : Nat) (cr : Bool) (w : WorldState),
      w.stats.totalRunsCompleted
        ≤ (tickOnce prober rescan fc fr maxConcurrent now cr w).stats.totalRunsCompleted) :=
  ⟨fun mc now w => runHealthCheckCycle_totalRuns_succ prober rescan mc now w,
   fun frOk mc now w => runHealthCheckCycle_fetchCheckFail prober rescan frOk mc now w,
   fun fc fr mc now cr w => tickOnce_totalRuns_mono prober rescan fc fr mc now cr w⟩

/-- Claim C7 counterexample: a tick whose cycle fails at the store fetch
ends with a cycle-level error (`error_count` bumped, `last_error` set) yet
leaves `total_runs_completed` at 0 — refuting the claim's \"including
cycles that end with a cycle-level error\". -/
theorem C7_error_cycle_counterexample :
    (tickOnce proberAlwaysCorrupted rescanAlwaysOk false true 4 0 false worldS2).stats.totalRunsCompleted = 0
    ∧ (tickOnce proberAlwaysCorrupted rescanAlwaysOk false true 4 0 false worldS2).stats.errorCount = 1
    ∧ (tickOnce proberAlwaysCorrupted rescanAlwaysOk false true 4 0 false worldS2).stats.lastError
        = some "failed to get unhealthy files" :=
  ⟨rfl, rfl, rfl⟩

/-- Claim C8: a tick arriving while a previous cycle's in-flight flag is
still set performs no store fetches and starts no tasks (the loop state is
returned untouched); consequently, with a 100 ms tick interval and a
500 ms probe on one due record, the prober runs exactly once over the
first second (scenario S6). -/
theorem C8_no_overlapping_cycles :
    (∀ (prober : Prober) (rescan : Rescanner) (maxConcurrent probeDuration t : Nat)
      (s : LoopState), t < s.busyUntil →
      tickAt prober rescan maxConcurrent probeDuration t s = s)
    ∧ s6Final.w.probeCalls = ["/m/x.mkv"]
    ∧ s6Final.busyUntil = 600 := by
  refine ⟨?_, rfl, rfl⟩
  intro prober rescan mc d t s h
  unfold tickAt
  rw [if_pos h]

/-- Witness for C8: at tick instant 0 with the flag held until 5, the tick
is a no-op. -/
theorem C8_no_overlapping_cycles_witness :
    ((0 : Nat) < 5) ∧
    tickAt proberAlwaysCorrupted rescanAlwaysOk 4 500 0 ⟨worldS2, 5⟩ = ⟨worldS2, 5⟩ :=
  ⟨by decide, C8_no_overlapping_cycles.1 proberAlwaysCorrupted rescanAlwaysOk 4 500 0 ⟨worldS2, 5⟩ (by decide)⟩

/-- Claim C1 (code bug): scenario S2 — `max_retries = 3`, probe always
Corrupted, rescanner succeeding — after exactly 3 cycles the rescanner was
invoked exactly once, but the record's status is still Corrupted (not
RepairTriggered), `last_error` still holds the probe error (not reset),
and `scheduled_check_at` is the retry backoff (980000), not
`now + repair_recheck_delay`: `triggerFileRepair` returns on rescan
success without any store write, contradicting its own
\"set repair triggered status\" comment. -/
theorem C1_s2_repair_triggered_missing :
    s2AfterThreeCycles.rescanCalls = ["/lib/x"]
    ∧ (getFileHealth s2AfterThreeCycles.store "/m/x.mkv").map
        (fun r => (r.status, r.lastError, r.scheduledCheckAt))
      = some (.corrupted, some "corrupt", some 980000)
    ∧ (some 980000 : Option Nat) ≠ some (500000 + repairRecheckDelay) :=
  ⟨rfl, rfl, by decide⟩

/-- Claim C5 counterexample: with `max_retries = 1` and a missing library
path, two Corrupted outcomes drive `retry_count` to 2 > 1 — the store
invariant `retry_count ≤ max_retries` is not preserved. -/
theorem C5_bound_exceeded_counterexample :
    (getFileHealth worldBoundTwice.store "p").map (fun r => (r.retryCount, r.maxRetries))
      = some (2, 1)
    ∧ (getFileHealth worldBoundTwice.store "p").map
        (fun r => decide (r.retryCount ≤ r.maxRetries)) = some false :=
  ⟨rfl, rfl⟩

/-- Claim C2 counterexample: with an entry for `/m/x.mkv` already present
in the registry, the direct check still invokes the probe and completes
without error — it does not fail with AlreadyActive. -/
theorem C2_already_active_counterexample :
    (performDirectCheck proberAlwaysCorrupted rescanAlwaysOk false false 0
        worldActiveCheck "/m/x.mkv").1.probeCalls = ["/m/x.mkv"]
    ∧ (performDirectCheck proberAlwaysCorrupted rescanAlwaysOk false false 0
        worldActiveCheck "/m/x.mkv").2 = none :=
  ⟨rfl, rfl⟩



/-- Witness for C9 at the S2 record and instant 1000. -/
theorem C9_healthy_marks_and_reschedules_witness :
    (handleHealthCheckResult rescanAlwaysOk 1000 worldS2
        ⟨.fileHealthy, "/m/x.mkv", none⟩).2 = none
    ∧ getFileHealth (handleHealthCheckResult rescanAlwaysOk 1000 worldS2
        ⟨.fileHealthy, "/m/x.mkv", none⟩).1.store "/m/x.mkv"
      = some { recordS2 with
          status := .healthy, retryCount := 0, repairRetryCount := 0,
          lastChecked := some 1000,
          scheduledCheckAt :=
            some (calculateNextCheck (recordS2.releaseDate.getD recordS2.createdAt) 1000) } :=
  C9_healthy_marks_and_reschedules rescanAlwaysOk 1000 worldS2 "/m/x.mkv" none recordS2 rfl

/-- Witness for C10 on an empty store. -/
theorem C10_missing_record_no_write_witness :
    handleHealthCheckResult rescanAlwaysOk 0 emptyWorld ⟨.fileCorrupted, "/x", none⟩
      = (emptyWorld, some ("file health record not found for file: " ++ "/x")) :=
  C10_missing_record_no_write rescanAlwaysOk 0 emptyWorld "/x" none .fileCorrupted rfl (Or.inl rfl)

/-- Witness for C3: the library-less record's first failed repair attempt
moves `repair_retry_count` from 0 to 1. -/
theorem C3_missing_library_ref_increments_repair_retry_witness :
    (processRepairNotification rescanAlwaysOk 5 worldBound recordBound).2 = none
    ∧ (processRepairNotification rescanAlwaysOk 5 worldBound recordBound).1.rescanCalls
        = worldBound.rescanCalls
    ∧ getFileHealth
        (processRepairNotification rescanAlwaysOk 5 worldBound recordBound).1.store
        recordBound.filePath
      = some { recordBound with
          repairRetryCount := recordBound.repairRetryCount + 1,
          lastError := some ("no library path found for file: " ++ recordBound.filePath
            ++ ", trigger a manual library sync to fix this"),
          lastChecked := some 5,
          scheduledCheckAt := some (5 + backoffDelay (recordBound.repairRetryCount + 1)) } :=
  C3_missing_library_ref_increments_repair_retry rescanAlwaysOk 5 worldBound recordBound recordBound rfl (Or.inl rfl)

/-- Witness for C4 at a record with `max_retries = 1`, `retry_count = 0`. -/
theorem C4_escalation_iff_bound_witness :
    (((handleHealthCheckResult rescanAlwaysOk 0 worldBound
          ⟨.fileCorrupted, "p", some "bad"⟩).1.repairTriggerCalls
        = worldBound.repairTriggerCalls ++ ["p"])
      ↔ recordBound.retryCount ≥ recordBound.maxRetries - 1)
    ∧ (recordBound.maxRetries ≤ 1 → recordBound.retryCount = 0 →
        (handleHealthCheckResult rescanAlwaysOk 0 worldBound
            ⟨.fileCorrupted, "p", some "bad"⟩).1.repairTriggerCalls
          = worldBound.repairTriggerCalls ++ ["p"])
    ∧ (recordBound.retryCount = recordBound.maxRetries - 1 →
        (handleHealthCheckResult rescanAlwaysOk 0 worldBound
            ⟨.fileCorrupted, "p", some "bad"⟩).1.repairTriggerCalls
          = worldBound.repairTriggerCalls ++ ["p"]) :=
  C4_escalation_iff_bound rescanAlwaysOk 0 worldBound "p" (some "bad") .fileCorrupted recordBound rfl
    (by decide) (Or.inl rfl)

/-- Witness for C5 (amended): one failure on the S2 record lands the
counters at 1 ≤ 3 and 0 ≤ 2. -/
theorem C5_single_step_bound_preservation_witness :
    recordS2AfterOneFailure.retryCount ≤ recordS2AfterOneFailure.maxRetries
    ∧ recordS2AfterOneFailure.repairRetryCount ≤ recordS2AfterOneFailure.maxRepairRetries :=
  C5_single_step_bound_preservation rescanAlwaysOk 7 worldS2 ⟨.fileCorrupted, "/m/x.mkv", some "oops"⟩ recordS2 rfl
    (by decide) (by decide) (by decide) (by decide) recordS2AfterOneFailure rfl

/-- Witness for C6 on a mid-check record with a registered handle. -/
theorem C6_cancellation_frame_witness :
    ((performDirectCheck proberAlwaysCorrupted rescanAlwaysOk false true 0 worldCancel
        "/m/x.mkv").1.store = worldCancel.store
      ∧ (performDirectCheck proberAlwaysCorrupted rescanAlwaysOk false true 0 worldCancel
          "/m/x.mkv").1.notifyCalls = worldCancel.notifyCalls
      ∧ (performDirectCheck proberAlwaysCorrupted rescanAlwaysOk false true 0 worldCancel
          "/m/x.mkv").2 = some "context canceled"
      ∧ (performDirectCheck proberAlwaysCorrupted rescanAlwaysOk false true 0 worldCancel
          "/m/x.mkv").1.activeChecks = deregisterCheck worldCancel.activeChecks "/m/x.mkv")
    ∧ ((cancelHealthCheck worldCancel "/m/x.mkv").2 = none
      ∧ (cancelHealthCheck worldCancel "/m/x.mkv").1.activeChecks
          = deregisterCheck worldCancel.activeChecks "/m/x.mkv"
      ∧ getFileHealth (cancelHealthCheck worldCancel "/m/x.mkv").1.store "/m/x.mkv"
          = some { recordChecking with status := .pending, lastError := none }) :=
  ⟨C6_cancellation_frame.1 proberAlwaysCorrupted rescanAlwaysOk 0 worldCancel "/m/x.mkv",
   C6_cancellation_frame.2 worldCancel "/m/x.mkv" recordChecking rfl rfl⟩

/-- Witness for C2 (amended) at a world whose registry already holds the
path. -/
theorem C2_duplicate_run_not_rejected_witness :
    worldActiveCheck.activeChecks.contains "/m/x.mkv" = true
    ∧ (performDirectCheck proberAlwaysCorrupted rescanAlwaysOk false false 0
        worldActiveCheck "/m/x.mkv").1.probeCalls
      = worldActiveCheck.probeCalls ++ ["/m/x.mkv"] :=
  ⟨rfl, C2_duplicate_run_not_rejected proberAlwaysCorrupted rescanAlwaysOk 0 worldActiveCheck "/m/x.mkv" rfl⟩

end Altmount
